import Mathlib

/-!
Shallow embedding of the govh OVH API client.

The repository contains two parallel implementations of the same client:
`src/caller.go` (+ `src/error.go`) and `src/unnamed/part_000`.  Definitions
for the first live in namespace `CallerGo`, for the second in namespace
`Part000`; machinery shared by both (SHA-1, hex, UTF-8, the JSON field
matching of encoding/json, strconv.Atoi) is at top level.

Machine words are modelled as `Nat` with explicit reduction modulo `2 ^ 32`
where the Go code relies on 32-bit wraparound (inside SHA-1); Go `int` /
`int64` clock values are modelled as `Int` (overflow is irrelevant for
epoch seconds).
-/

/-! ### crypto/sha1, encoding/hex, UTF-8 byte encoding -/

/-- Truncation to a 32-bit word. -/
def w32 (n : Nat) : Nat := n % 4294967296

/-- Left rotation of a 32-bit word `n` by `b` bits. -/
def rotl (b n : Nat) : Nat := n * 2 ^ b % 4294967296 + n / 2 ^ (32 - b)

/-- The SHA-1 round function (FIPS 180-4, `Ch` / `Parity` / `Maj` / `Parity`). -/
def sha1F (i b c d : Nat) : Nat :=
  if i < 20 then (b &&& c) ||| ((4294967295 - b) &&& d)
  else if i < 40 then b ^^^ c ^^^ d
  else if i < 60 then (b &&& c) ||| (b &&& d) ||| (c &&& d)
  else b ^^^ c ^^^ d

/-- The SHA-1 round constants. -/
def sha1K (i : Nat) : Nat :=
  if i < 20 then 1518500249
  else if i < 40 then 1859775393
  else if i < 60 then 2400959708
  else 3395469782

/-- The five 32-bit working registers of SHA-1. -/
abbrev Sha1State := Nat × Nat × Nat × Nat × Nat

/-- One SHA-1 compression round; `iw` is the pair (round index, schedule word). -/
def sha1Round (st : Sha1State) (iw : Nat × Nat) : Sha1State :=
  match st with
  | (a, b, c, d, e) =>
    (w32 (rotl 5 a + sha1F iw.1 b c d + e + sha1K iw.1 + iw.2), a, rotl 30 b, c, d)

/-- Extend the 16-word message schedule; `acc` is the schedule so far, most
recent word first, so `w[i-3]`, `w[i-8]`, `w[i-14]`, `w[i-16]` are at
positions 2, 7, 13, 15. -/
def sha1ExpandRev : Nat → List Nat → List Nat
  | 0, acc => acc
  | n + 1, acc =>
    sha1ExpandRev n
      (rotl 1 (acc.getD 2 0 ^^^ acc.getD 7 0 ^^^ acc.getD 13 0 ^^^ acc.getD 15 0) :: acc)

/-- Big-endian 32-bit word from the first four bytes of a list. -/
def beWord (bs : List Nat) : Nat :=
  bs.getD 0 0 * 16777216 + bs.getD 1 0 * 65536 + bs.getD 2 0 * 256 + bs.getD 3 0

/-- The sixteen big-endian words of one 64-byte chunk. -/
def chunkWords (chunk : List Nat) : List Nat :=
  (List.range 16).map (fun i => beWord (chunk.drop (4 * i)))

/-- SHA-1 compression of one 64-byte chunk into the running state. -/
def sha1Chunk (h : Sha1State) (chunk : List Nat) : Sha1State :=
  match h with
  | (h0, h1, h2, h3, h4) =>
    match ((sha1ExpandRev 64 (chunkWords chunk).reverse).reverse.enum).foldl sha1Round
        (h0, h1, h2, h3, h4) with
    | (a, b, c, d, e) => (w32 (h0 + a), w32 (h1 + b), w32 (h2 + c), w32 (h3 + d), w32 (h4 + e))

/-- The `k` big-endian bytes of `n`. -/
def beBytes (k n : Nat) : List Nat :=
  (List.range k).map (fun i => n / 2 ^ (8 * (k - 1 - i)) % 256)

/-- SHA-1 padding: a 0x80 byte, zeros to 56 mod 64, then the 64-bit
big-endian bit length. -/
def sha1Pad (msg : List Nat) : List Nat :=
  msg ++ [128] ++ List.replicate ((64 - (msg.length + 9) % 64) % 64) 0
    ++ beBytes 8 (msg.length * 8)

/-- Split a list into `n` chunks of (at most) 64 bytes. -/
def toChunksN : Nat → List Nat → List (List Nat)
  | 0, _ => []
  | n + 1, l => l.take 64 :: toChunksN n (l.drop 64)

/-- Serialize the final SHA-1 state as the 20-byte digest. -/
def sha1Digest (h : Sha1State) : List Nat :=
  beBytes 4 h.1 ++ beBytes 4 h.2.1 ++ beBytes 4 h.2.2.1 ++ beBytes 4 h.2.2.2.1
    ++ beBytes 4 h.2.2.2.2

/-- SHA-1 of a byte sequence (model of Go crypto/sha1). -/
def sha1 (msg : List Nat) : List Nat :=
  sha1Digest ((toChunksN ((sha1Pad msg).length / 64) (sha1Pad msg)).foldl sha1Chunk
    (1732584193, 4023233417, 2562383102, 271733878, 3285377520))

/-- UTF-8 encoding of one Unicode code point (what Go `io.WriteString` emits). -/
def utf8EncodeChar (n : Nat) : List Nat :=
  if n < 128 then [n]
  else if n < 2048 then [192 + n / 64, 128 + n % 64]
  else if n < 65536 then [224 + n / 4096, 128 + n / 64 % 64, 128 + n % 64]
  else [240 + n / 262144, 128 + n / 4096 % 64, 128 + n / 64 % 64, 128 + n % 64]

/-- UTF-8 bytes of a string. -/
def utf8Bytes (s : String) : List Nat :=
  s.data.flatMap (fun c => utf8EncodeChar c.toNat)

/-- Lowercase hexadecimal digit (the alphabet of encoding/hex). -/
def hexDigit (n : Nat) : Char := Char.ofNat (if n < 10 then 48 + n else 87 + n)

/-- Lowercase hexadecimal rendering of a byte sequence
(model of Go `hex.EncodeToString`). -/
def hexEncode (bs : List Nat) : String :=
  String.mk (bs.flatMap (fun b => [hexDigit (b / 16), hexDigit (b % 16)]))

/-- `$1$`-prefixed lowercase-hex SHA-1 of a string: the shared tail of both
`getSignature` implementations. -/
def sha1Hex (s : String) : String := hexEncode (sha1 (utf8Bytes s))

/-! ### strconv.Atoi -/

/-- Accumulate decimal digits; fails on any non-digit character. -/
def digitsValAux : Nat → List Char → Option Nat
  | acc, [] => some acc
  | acc, c :: cs => if c.isDigit then digitsValAux (acc * 10 + (c.toNat - 48)) cs else none

/-- Value of a non-empty all-digit character list. -/
def digitsVal : List Char → Option Nat
  | [] => none
  | c :: cs => digitsValAux 0 (c :: cs)

/-- Model of Go `strconv.Atoi` on a 64-bit platform: optional sign, then
one or more decimal digits and nothing else, and the parsed value must fit
the platform int — a decimal outside the 64-bit signed range makes Atoi
return ErrRange, which `Time` propagates like any other parse failure. -/
def atoi (s : String) : Option Int :=
  match s.data with
  | '+' :: rest =>
    (digitsVal rest).bind (fun n => if n ≤ 9223372036854775807 then some (n : Int) else none)
  | '-' :: rest =>
    (digitsVal rest).bind (fun n => if n ≤ 9223372036854775808 then some (-(n : Int)) else none)
  | l =>
    (digitsVal l).bind (fun n => if n ≤ 9223372036854775807 then some (n : Int) else none)

/-! ### encoding/json field matching, for the fixed shapes this client reads

A body is a flat JSON object: a list of key/value pairs with string or
integer values.  In Go, `json.Unmarshal` maps an object key to a struct field
when it equals the effective name of the field — the `json:"..."` tag when
present, otherwise the Go field name — compared case-insensitively; absent
keys leave the field at its prior value. -/

/-- A JSON scalar as needed by the response shapes of this client. -/
inductive JVal where
  | s (v : String)
  | n (v : Int)
deriving Repr, DecidableEq

/-- ASCII lower-casing of one character (the keys matched here are ASCII). -/
def charToLower (c : Char) : Char :=
  if 65 ≤ c.toNat ∧ c.toNat ≤ 90 then Char.ofNat (c.toNat + 32) else c

/-- Case-insensitive key equality (Go `encoding/json` field matching). -/
def eqFold (a b : String) : Bool :=
  a.data.map charToLower == b.data.map charToLower

/-- Look up the value for a struct field whose effective name is `key`. -/
def jsonLookup (body : List (String × JVal)) (key : String) : Option JVal :=
  (body.find? (fun kv => eqFold kv.1 key)).map (fun kv => kv.2)

/-- String-typed field lookup. -/
def jsonStr (body : List (String × JVal)) (key : String) : Option String :=
  match jsonLookup body key with
  | some (JVal.s v) => some v
  | _ => none

/-- Integer-typed field lookup. -/
def jsonInt (body : List (String × JVal)) (key : String) : Option Int :=
  match jsonLookup body key with
  | some (JVal.n v) => some v
  | _ => none

/-! ### Shared data model -/

/-- The `Caller` struct (identical fields in both files up to the `Url`/`URL`
spelling; `delay` is whole seconds in both models). -/
structure Caller where
  ApplicationKey : String
  ApplicationSecret : String
  ConsumerKey : String
  Url : String
  delay : Int
deriving Repr, DecidableEq

/-- An outgoing HTTP request as built by the client. -/
structure Request where
  method : String
  url : String
  headers : List (String × String)
  body : String
deriving Repr, DecidableEq

/-- The `ApiOvhError` struct of src/error.go / part_000. -/
structure ApiOvhError where
  Message : String
  Code : Int
  Tracer : String
deriving Repr, DecidableEq

/-- `json.Unmarshal` of an error-shaped body into a pre-initialized
`ApiOvhError` (fields have no tags; body keys `message` / `code` / `tracer`
match the field names case-insensitively; absent keys keep `init`). -/
def unmarshalApiOvhError (init : ApiOvhError) (body : List (String × JVal)) : ApiOvhError :=
  { Message := (jsonStr body "Message").getD init.Message
    Code := (jsonInt body "Code").getD init.Code
    Tracer := (jsonStr body "Tracer").getD init.Tracer }

/-- The `GetCKResponse` struct (one Lean structure for both files; the files
differ in json tags, hence in their unmarshal functions below). -/
structure GetCKResponse where
  ConsumerKey : String
  Status : String
  ValidationUrl : String
deriving Repr, DecidableEq

/-- Failures of `Time` as the callers see them. -/
inductive TimeError where
  | remoteUnavailable (code : Int)
  | malformed
deriving Repr, DecidableEq

/-- Failures of `NewCaller`. -/
inductive NewCallerError where
  | invalidEndpoint (msg : String)
  | timeFailed (e : TimeError)
deriving Repr, DecidableEq

/-- Failures of `GetConsumerKey`: a local/deserialization error or a
structured remote error. -/
inductive CKFailure where
  | localOrMalformed
  | api (e : ApiOvhError)
deriving Repr, DecidableEq

/-- Outcome of the response-classification tail of `CallApi`/`CallAPI`.
The first three constructors are the success branch (`200 <= status < 300`):
nil error without decoding, nil error after decoding, or a deserialization
failure of the success body.  The last two are the non-success branch. -/
inductive ClassifyOut where
  | okNil
  | okDecoded
  | successDecodeFail
  | errBodyMalformed
  | errApi (e : ApiOvhError)
deriving Repr, DecidableEq

/-- Did classification take the success branch? -/
def isSuccessBranch : ClassifyOut → Bool
  | ClassifyOut.okNil => true
  | ClassifyOut.okDecoded => true
  | ClassifyOut.successDecodeFail => true
  | _ => false

/-- Did classification return nil without touching the body? -/
def isOkNil : ClassifyOut → Bool
  | ClassifyOut.okNil => true
  | _ => false

/-- The `ApiError` code carried by a classification outcome, if any. -/
def errApiCode : ClassifyOut → Option Int
  | ClassifyOut.errApi e => some e.Code
  | _ => none

/-- The endpoint table (`ApiUrl` / `APIURL`, same entries in both files). -/
def apiUrl (endpoint : String) : Option String :=
  if endpoint = "ovh-eu" then some "https://api.ovh.com/1.0"
  else if endpoint = "ovh-ca" then some "https://ca.api.ovh.com/1.0"
  else if endpoint = "runabove" then some "https://api.runabove.com/1.0"
  else none

/-- Model of Go `strings.Join`. -/
def stringsJoin (elems : List String) (sep : String) : String :=
  match elems with
  | [] => ""
  | x :: xs => xs.foldl (fun acc y => acc ++ sep ++ y) x

/-- The response handling of `Time` (identical in both files): a status
other than 200 is a remote-unavailable error carrying that status; then the
body must parse with `strconv.Atoi`, whose failure propagates; otherwise the
parsed integer is returned. -/
def timeResult (status : Int) (body : String) : Except TimeError Int :=
  if status ≠ 200 then Except.error (TimeError.remoteUnavailable status)
  else
    match atoi body with
    | none => Except.error TimeError.malformed
    | some v => Except.ok v

/-! ### src/caller.go -/

namespace CallerGo

/-- `NewCaller` (src/caller.go lines 43-66): resolve the endpoint, read the
local clock (`localAtIssue`, line 57) just before issuing `Time()`, and
store `delay := ovhTime - localAtIssue` (line 63). -/
def newCaller (endpoint applicationKey applicationSecret consumerKey : String)
    (localAtIssue : Int) (timeStatus : Int) (timeBody : String) :
    Except NewCallerError Caller :=
  match apiUrl endpoint with
  | none => Except.error (NewCallerError.invalidEndpoint ("Invalid endpoint " ++ endpoint))
  | some url =>
    match timeResult timeStatus timeBody with
    | Except.error e => Except.error (NewCallerError.timeFailed e)
    | Except.ok ovhTime =>
      Except.ok { ApplicationKey := applicationKey, ApplicationSecret := applicationSecret,
                  ConsumerKey := consumerKey, Url := url, delay := ovhTime - localAtIssue }

/-- The string hashed by `getSignature` (line 249):
`Sprintf("%s+%s+%s+%s+%s+%d", AS, CK, method, url, body, apiTime)`. -/
def sigString (caller : Caller) (method url body : String) (apiTime : Int) : String :=
  caller.ApplicationSecret ++ "+" ++ caller.ConsumerKey ++ "+" ++ method ++ "+" ++ url
    ++ "+" ++ body ++ "+" ++ toString apiTime

/-- `getSignature` (lines 247-252). -/
def getSignature (caller : Caller) (method url body : String) (apiTime : Int) : String :=
  "$1$" ++ sha1Hex (sigString caller method url body apiTime)

/-- The body-serialization step of `CallApi` (lines 191-198): `params` stays
a zero-length byte sequence when `body == nil`, else it is the
output of `json.Marshal` (here an opaque `marshal` collaborator). -/
def callApiParams {α : Type} (marshal : α → String) (body : Option α) : String :=
  match body with
  | none => ""
  | some b => marshal b

/-- The request built by `CallApi` (lines 200-213): complete URL, timestamp
`localNow + delay` (line 206), the five headers in source order, and the
signature over the exact same method/URL/body/timestamp. -/
def callApiRequest (caller : Caller) (localNow : Int) (url method : String)
    (params : String) : Request :=
  { method := method
    url := caller.Url ++ url
    headers := [("Content-Type", "application/json"),
                ("X-Ovh-Timestamp", toString (localNow + caller.delay)),
                ("X-Ovh-Application", caller.ApplicationKey),
                ("X-Ovh-Consumer", caller.ConsumerKey),
                ("X-Ovh-Signature",
                  getSignature caller method (caller.Url ++ url) params (localNow + caller.delay))]
    body := params }

/-- The `ApiOvhError` built on the non-success path (lines 237-243 and
165-184): unmarshal the body into a zero value, then overwrite `Code` with
the transport status. -/
def apiErrorFrom (status : Int) (body : List (String × JVal)) : ApiOvhError :=
  let e := unmarshalApiOvhError { Message := "", Code := 0, Tracer := "" } body
  { e with Code := status }

/-- The response classification of `CallApi` (lines 226-244).  Inputs beyond
the status: the byte length of the success body, whether a `typeResult` shape was
supplied, whether the success body unmarshals into it, and the non-success
body parsed as an error shape (`none` when it does not parse). -/
def callApiClassify (status : Int) (bodyLen : Nat) (hasShape decodes : Bool)
    (errBody : Option (List (String × JVal))) : ClassifyOut :=
  if 200 ≤ status ∧ status < 300 then
    if 0 < bodyLen ∧ hasShape = true then
      if decodes then ClassifyOut.okDecoded else ClassifyOut.successDecodeFail
    else ClassifyOut.okNil
  else
    match errBody with
    | none => ClassifyOut.errBodyMalformed
    | some b => ClassifyOut.errApi (apiErrorFrom status b)

/-- `json.Unmarshal` of a success body into `GetCKResponse` (lines 107-114):
the fields carry no json tags, so the effective keys are the field names
themselves, matched case-insensitively — `consumerKey` and `validationUrl`
match, but the body key `state` does not match the field name `Status`. -/
def unmarshalGetCKResponse (body : List (String × JVal)) : GetCKResponse :=
  { ConsumerKey := (jsonStr body "ConsumerKey").getD ""
    Status := (jsonStr body "Status").getD ""
    ValidationUrl := (jsonStr body "ValidationUrl").getD "" }

/-- The headers attached by `GetConsumerKey` (lines 151-152): content type
and the application key, nothing else. -/
def getCKHeaders (caller : Caller) : List (String × String) :=
  [("Content-Type", "application/json"), ("X-OVH-Application", caller.ApplicationKey)]

/-- The request built by `GetConsumerKey` (lines 147-152). -/
def getCKRequest (caller : Caller) (params : String) : Request :=
  { method := "POST", url := caller.Url ++ "/auth/credential",
    headers := getCKHeaders caller, body := params }

/-- The state-and-result semantics of `GetConsumerKey` (lines 165-184):
on status 200 unmarshal the grant, store its consumer key into the caller,
and return it; otherwise build an `ApiOvhError` whose `Code` is the
transport status.  `ckBody`/`errBody` are `none` when the raw body does not
parse as the respective shape. -/
def getConsumerKeyOp (caller : Caller) (status : Int)
    (ckBody : Option (List (String × JVal))) (errBody : Option (List (String × JVal))) :
    Caller × Except CKFailure GetCKResponse :=
  if status = 200 then
    match ckBody with
    | none => (caller, Except.error CKFailure.localOrMalformed)
    | some b =>
      let askCK := unmarshalGetCKResponse b
      ({ caller with ConsumerKey := askCK.ConsumerKey }, Except.ok askCK)
  else
    match errBody with
    | none => (caller, Except.error CKFailure.localOrMalformed)
    | some b => (caller, Except.error (CKFailure.api (apiErrorFrom status b)))

/-- `Time` (lines 77-104) never assigns any caller field: it returns the
caller unchanged next to `timeResult`. -/
def timeOp (caller : Caller) (status : Int) (body : String) :
    Caller × Except TimeError Int :=
  (caller, timeResult status body)

/-- `Ping` (lines 70-73): `Time` with the value discarded. -/
def pingOp (caller : Caller) (status : Int) (body : String) :
    Caller × Option TimeError :=
  (caller,
    match timeResult status body with
    | Except.ok _ => none
    | Except.error e => some e)

/-- `CallApi` (lines 190-245) as a state-passing operation: it assigns no
caller field, builds the signed request, and classifies the response. -/
def callApiOp (caller : Caller) (localNow : Int) (url method : String) (params : String)
    (status : Int) (bodyLen : Nat) (hasShape decodes : Bool)
    (errBody : Option (List (String × JVal))) : Caller × Request × ClassifyOut :=
  (caller, callApiRequest caller localNow url method params,
    callApiClassify status bodyLen hasShape decodes errBody)

end CallerGo

/-! ### src/unnamed/part_000 -/

namespace Part000

/-- `NewCaller` (part_000 lines 42-63): after `Time()` returns, store
`delay := time.Since(*ovhTime)`, i.e. the local clock at the response
(`localAtResponse`) minus the remote time. -/
def newCaller (endpoint applicationKey applicationSecret consumerKey : String)
    (localAtResponse : Int) (timeStatus : Int) (timeBody : String) :
    Except NewCallerError Caller :=
  match apiUrl endpoint with
  | none => Except.error (NewCallerError.invalidEndpoint ("Invalid endpoint " ++ endpoint))
  | some url =>
    match timeResult timeStatus timeBody with
    | Except.error e => Except.error (NewCallerError.timeFailed e)
    | Except.ok ovhTime =>
      Except.ok { ApplicationKey := applicationKey, ApplicationSecret := applicationSecret,
                  ConsumerKey := consumerKey, Url := url, delay := localAtResponse - ovhTime }

/-- The timestamp stamped by `CallAPI` (line 205):
`time.Now().Add(caller.delay).Unix()`. -/
def callApiTimestamp (caller : Caller) (localNow : Int) : Int :=
  localNow + caller.delay

/-- `getSignature` (part_000 lines 248-260): `strings.Join` of the six
segments with `+`, then the `$1$`-prefixed lowercase-hex SHA-1. -/
def getSignature (caller : Caller) (method url body : String) (timestamp : Int) : String :=
  "$1$" ++ sha1Hex (stringsJoin
    [caller.ApplicationSecret, caller.ConsumerKey, method, url, body, toString timestamp] "+")

/-- The `ApiOvhError` built on the non-success paths (lines 178-183 and
240-245): `Code` is pre-initialized with the transport status and the body
is unmarshalled into the same value afterwards, so a `code` field present in
the body overwrites the transport status. -/
def apiErrorFrom (status : Int) (body : List (String × JVal)) : ApiOvhError :=
  unmarshalApiOvhError { Message := "", Code := status, Tracer := "" } body

/-- The response classification of `CallAPI` (lines 230-245); identical to
the caller.go one except for how the `ApiOvhError` is built. -/
def callApiClassify (status : Int) (bodyLen : Nat) (hasShape decodes : Bool)
    (errBody : Option (List (String × JVal))) : ClassifyOut :=
  if 200 ≤ status ∧ status < 300 then
    if 0 < bodyLen ∧ hasShape = true then
      if decodes then ClassifyOut.okDecoded else ClassifyOut.successDecodeFail
    else ClassifyOut.okNil
  else
    match errBody with
    | none => ClassifyOut.errBodyMalformed
    | some b => ClassifyOut.errApi (apiErrorFrom status b)

/-- `json.Unmarshal` of a success body into `GetCKResponse` (part_000 lines
106-114): here every field carries a json tag (`consumerKey`, `state`,
`validationUrl`), so all three body keys match. -/
def unmarshalGetCKResponse (body : List (String × JVal)) : GetCKResponse :=
  { ConsumerKey := (jsonStr body "consumerKey").getD ""
    Status := (jsonStr body "state").getD ""
    ValidationUrl := (jsonStr body "validationUrl").getD "" }

/-- The headers attached by `GetConsumerKey` (part_000 lines 152-153). -/
def getCKHeaders (caller : Caller) : List (String × String) :=
  [("Content-Type", "application/json"), ("X-OVH-Application", caller.ApplicationKey)]

/-- `GetConsumerKey` (part_000 lines 142-184) as a state-passing operation. -/
def getConsumerKeyOp (caller : Caller) (status : Int)
    (ckBody : Option (List (String × JVal))) (errBody : Option (List (String × JVal))) :
    Caller × Except CKFailure GetCKResponse :=
  if status = 200 then
    match ckBody with
    | none => (caller, Except.error CKFailure.localOrMalformed)
    | some b =>
      let askCK := unmarshalGetCKResponse b
      ({ caller with ConsumerKey := askCK.ConsumerKey }, Except.ok askCK)
  else
    match errBody with
    | none => (caller, Except.error CKFailure.localOrMalformed)
    | some b => (caller, Except.error (CKFailure.api (apiErrorFrom status b)))

/-- `Time` (part_000 lines 74-104) assigns no caller field. -/
def timeOp (caller : Caller) (status : Int) (body : String) :
    Caller × Except TimeError Int :=
  (caller, timeResult status body)

/-- `Ping` (part_000 lines 67-70). -/
def pingOp (caller : Caller) (status : Int) (body : String) :
    Caller × Option TimeError :=
  (caller,
    match timeResult status body with
    | Except.ok _ => none
    | Except.error e => some e)

/-- `CallAPI` (part_000 lines 189-246) as a state-passing operation; the
request itself is omitted here because part_000 adds its headers by
iterating a Go map (nondeterministic order), but no caller field is ever
assigned. -/
def callApiOp (caller : Caller) (_localNow : Int) (_url _method : String) (_params : String)
    (status : Int) (bodyLen : Nat) (hasShape decodes : Bool)
    (errBody : Option (List (String × JVal))) : Caller × ClassifyOut :=
  (caller, callApiClassify status bodyLen hasShape decodes errBody)

end Part000

/-! ### Concrete fixtures shared by the theorems -/

/-- A concrete session, as a test would build it. -/
def caller0 : Caller :=
  { ApplicationKey := "AK", ApplicationSecret := "AS", ConsumerKey := "",
    Url := "https://api.ovh.com/1.0", delay := 0 }

/-- A successful credential response body. -/
def ckBodyEx : List (String × JVal) :=
  [("consumerKey", JVal.s "abc"), ("state", JVal.s "pendingValidation"),
   ("validationUrl", JVal.s "https://example.com/validate")]

/-- A 404 error body whose `code` field deliberately disagrees with the
transport status. -/
def errBody999 : List (String × JVal) :=
  [("message", JVal.s "Not found"), ("code", JVal.n 999)]

/-! ### Helper lemmas -/

/-- A lowercase hexadecimal character. -/
def isLowHex (c : Char) : Bool :=
  (48 ≤ c.toNat && c.toNat ≤ 57) || (97 ≤ c.toNat && c.toNat ≤ 102)

theorem hexDigit_low (n : Nat) (h : n < 16) : isLowHex (hexDigit n) = true := by
  interval_cases n <;> decide

theorem mem_beBytes_lt (k n x : Nat) (h : x ∈ beBytes k n) : x < 256 := by
  simp only [beBytes, List.mem_map, List.mem_range] at h
  obtain ⟨i, _, rfl⟩ := h
  exact Nat.mod_lt _ (by norm_num)

theorem mem_sha1Digest_lt (h : Sha1State) (x : Nat) (hx : x ∈ sha1Digest h) : x < 256 := by
  simp only [sha1Digest, List.mem_append] at hx
  rcases hx with ((((hx | hx) | hx) | hx) | hx) <;> exact mem_beBytes_lt _ _ _ hx

theorem mem_sha1_lt (msg : List Nat) (x : Nat) (hx : x ∈ sha1 msg) : x < 256 :=
  mem_sha1Digest_lt _ _ hx

theorem hexEncode_low (bs : List Nat) (h : ∀ x ∈ bs, x < 256) :
    ((hexEncode bs).data.all isLowHex) = true := by
  simp only [hexEncode, List.all_eq_true]
  intro c hc
  simp only [List.mem_flatMap] at hc
  obtain ⟨b, hb, hcb⟩ := hc
  have hb256 := h b hb
  simp only [List.mem_cons, List.mem_singleton] at hcb
  rcases hcb with rfl | rfl | hcb
  · exact hexDigit_low _ (Nat.div_lt_of_lt_mul (by omega))
  · exact hexDigit_low _ (Nat.mod_lt _ (by norm_num))
  · cases hcb

theorem sha1Hex_low (s : String) : ((sha1Hex s).data.all isLowHex) = true :=
  hexEncode_low _ (mem_sha1_lt _)

/-! ### Claims -/

/-- C10: the two duplicate `getSignature` implementations are equivalent —
for the same caller state (application secret and consumer token) and the
same method, URL, body string and timestamp, src/caller.go and
src/unnamed/part_000 produce the same signature string. -/
theorem signature_implementations_agree :
    ∀ (c : Caller) (method url body : String) (t : Int),
      CallerGo.getSignature c method url body t = Part000.getSignature c method url body t :=
  fun _ _ _ _ _ => rfl

/-- C3: both signature functions return the literal tag `$1$` followed by
the lowercase hexadecimal SHA-1 digest of the concatenation, joined by `+`
and in this exact order, of the application secret, the consumer token, the
method name exactly as dispatched (the HTTP method names GET/POST/PUT/DELETE,
which are uppercase), the full URL, the serialized body bytes and the
decimal form of the timestamp; and every character of the hex digest is a
lowercase hexadecimal digit. -/
theorem signature_algorithm :
    ∀ (c : Caller) (method url body : String) (t : Int),
      CallerGo.getSignature c method url body t
        = "$1$" ++ hexEncode (sha1 (utf8Bytes
            (c.ApplicationSecret ++ "+" ++ c.ConsumerKey ++ "+" ++ method ++ "+" ++ url
              ++ "+" ++ body ++ "+" ++ toString t)))
    ∧ Part000.getSignature c method url body t
        = "$1$" ++ hexEncode (sha1 (utf8Bytes
            (c.ApplicationSecret ++ "+" ++ c.ConsumerKey ++ "+" ++ method ++ "+" ++ url
              ++ "+" ++ body ++ "+" ++ toString t)))
    ∧ ((sha1Hex (CallerGo.sigString c method url body t)).data.all isLowHex) = true :=
  fun _ _ _ _ _ => ⟨rfl, rfl, sha1Hex_low _⟩

/-- C6 counterexample: the body consisting of the decimal digits of
`2 ^ 63` is a decimal integer, yet on a 200 response `Time` yields the
parse failure (`strconv.Atoi` rejects it with ErrRange on a 64-bit
platform) instead of returning that integer, so the claim as stated fails;
the largest platform int itself is still returned verbatim. -/
theorem time_fetch_out_of_range_decimal :
    digitsVal ("9223372036854775808".data) = some 9223372036854775808
    ∧ atoi "9223372036854775808" = none
    ∧ timeResult 200 "9223372036854775808" = Except.error TimeError.malformed
    ∧ timeResult 200 "9223372036854775807" = Except.ok 9223372036854775807 := by
  exact ⟨by decide, by decide, rfl, rfl⟩

/-- C6 amended: the response handling of the time fetch (identical in both
files, where success means transport status 200, the only status the code
accepts): any other status yields the remote-unavailable error carrying
that status; a 200 whose body does not parse under `strconv.Atoi` — not a
signed decimal, or a decimal outside the 64-bit platform-int range, which
Atoi rejects with ErrRange — yields a parse failure; a 200 whose body
parses returns exactly the parsed integer. -/
theorem time_fetch_behavior :
    ∀ (c : Caller) (status : Int) (body : String),
      (CallerGo.timeOp c status body).2 = timeResult status body
    ∧ (Part000.timeOp c status body).2 = timeResult status body
    ∧ (status ≠ 200 → timeResult status body = Except.error (TimeError.remoteUnavailable status))
    ∧ (atoi body = none → timeResult 200 body = Except.error TimeError.malformed)
    ∧ (∀ v : Int, atoi body = some v → timeResult 200 body = Except.ok v) := by
  intro c status body
  refine ⟨rfl, rfl, ?_, ?_, ?_⟩
  · intro h
    simp [timeResult, h]
  · intro h
    simp [timeResult, h]
  · intro v h
    simp [timeResult, h]

/-- C6 witness: the three behaviors at concrete inputs, via the theorem. -/
theorem time_fetch_behavior_witness :
    timeResult 503 "1100" = Except.error (TimeError.remoteUnavailable 503)
    ∧ timeResult 200 "12x" = Except.error TimeError.malformed
    ∧ timeResult 200 "1100" = Except.ok 1100 :=
  ⟨(time_fetch_behavior caller0 503 "1100").2.2.1 (by decide),
   (time_fetch_behavior caller0 200 "12x").2.2.2.1 (by decide),
   (time_fetch_behavior caller0 200 "1100").2.2.2.2 1100 (by decide)⟩

/-- C5: in both dispatchers, the success branch is taken exactly for
transport status in the interval from 200 inclusive to 300 exclusive,
whatever the body and requested shape; outside it the result is never a
success, however well-formed the body; and a zero-length body on an
in-range status returns nil even when a response shape was requested. -/
theorem classification_boundary :
    ∀ (s : Int) (n : Nat) (hs d : Bool) (eb : Option (List (String × JVal))),
      isSuccessBranch (CallerGo.callApiClassify s n hs d eb) = decide (200 ≤ s ∧ s < 300)
    ∧ isSuccessBranch (Part000.callApiClassify s n hs d eb) = decide (200 ≤ s ∧ s < 300)
    ∧ isOkNil (CallerGo.callApiClassify s 0 hs d eb) = decide (200 ≤ s ∧ s < 300)
    ∧ isOkNil (Part000.callApiClassify s 0 hs d eb) = decide (200 ≤ s ∧ s < 300) := by
  intro s n hs d eb
  by_cases h : 200 ≤ s ∧ s < 300
  · refine ⟨?_, ?_, ?_, ?_⟩ <;>
      simp only [CallerGo.callApiClassify, Part000.callApiClassify, if_pos h, h,
        decide_eq_true_eq, and_self, decide_True] <;>
      by_cases h2 : 0 < n ∧ hs = true <;>
      simp [h2, isSuccessBranch, isOkNil] <;>
      cases d <;> simp [isSuccessBranch, isOkNil]
  · refine ⟨?_, ?_, ?_, ?_⟩ <;>
      simp only [CallerGo.callApiClassify, Part000.callApiClassify, if_neg h, h,
        decide_eq_true_eq, decide_False] <;>
      cases eb <;> simp [isSuccessBranch, isOkNil, h]

/-- C2 counterexample: on a 404 response whose body carries `code` 999, the
part_000 dispatcher returns an `ApiError` whose code is 999, the value from
the body, not the transport status 404 — the claim fails there, while the
caller.go dispatcher does return 404. -/
theorem api_error_code_body_overrides_p000 :
    errApiCode (Part000.callApiClassify 404 24 false false (some errBody999)) = some 999
    ∧ ((999 : Int) == 404) = false
    ∧ errApiCode (CallerGo.callApiClassify 404 24 false false (some errBody999)) = some 404 := by
  refine ⟨?_, by decide, ?_⟩ <;> decide

/-- C2 amended: on every non-success response whose body parses as an error
shape, the caller.go dispatcher returns an `ApiError` whose code is the
transport status, regardless of any `code` field in the body; the part_000
dispatcher uses the transport status only as a default — a `code` field
present in the body overrides it. -/
theorem api_error_code_amended :
    ∀ (s : Int) (b : List (String × JVal)) (n : Nat) (hs d : Bool),
      s < 200 ∨ 300 ≤ s →
      CallerGo.callApiClassify s n hs d (some b) = ClassifyOut.errApi (CallerGo.apiErrorFrom s b)
    ∧ Part000.callApiClassify s n hs d (some b) = ClassifyOut.errApi (Part000.apiErrorFrom s b)
    ∧ (CallerGo.apiErrorFrom s b).Code = s
    ∧ (Part000.apiErrorFrom s b).Code = (jsonInt b "Code").getD s := by
  intro s b n hs d h
  have hn : ¬(200 ≤ s ∧ s < 300) := by omega
  refine ⟨?_, ?_, rfl, rfl⟩ <;>
    simp [CallerGo.callApiClassify, Part000.callApiClassify, hn]

/-- C2 witness: the amended statement at the concrete 404 response. -/
theorem api_error_code_amended_witness :
    (CallerGo.apiErrorFrom 404 errBody999).Code = 404
    ∧ (Part000.apiErrorFrom 404 errBody999).Code = 999 := by
  have h := api_error_code_amended 404 errBody999 24 false false (Or.inr (by decide))
  refine ⟨h.2.2.1, ?_⟩
  rw [h.2.2.2]
  decide

/-- C7: when `CallApi` is invoked without a request body, the serialized
body is the zero-length string — not the literal `null` — and that same
zero-length string is both the sent request body and the body segment of
the signature input; it is distinguishable from every non-empty serialized
body in the sent bytes and in the signature input. -/
theorem absent_body_serialization :
    ∀ (α : Type) (marshal : α → String) (c : Caller) (localNow t : Int)
      (url method s : String),
      s ≠ "" →
      CallerGo.callApiParams marshal (none : Option α) = ""
    ∧ (CallerGo.callApiRequest c localNow url method
        (CallerGo.callApiParams marshal (none : Option α))).body = ""
    ∧ (("" == "null") = false)
    ∧ (CallerGo.callApiRequest c localNow url method
        (CallerGo.callApiParams marshal (none : Option α))).body ≠ s
    ∧ CallerGo.sigString c method (c.Url ++ url)
        (CallerGo.callApiParams marshal (none : Option α)) t
        ≠ CallerGo.sigString c method (c.Url ++ url) s t := by
  intro α marshal c localNow t url method s hs
  refine ⟨rfl, rfl, by decide, Ne.symm hs, ?_⟩
  intro hEq
  have hlen := congrArg String.length hEq
  simp only [CallerGo.sigString, CallerGo.callApiParams, String.length_append] at hlen
  have he : ("" : String).length = 0 := rfl
  rw [he] at hlen
  have hzero : s.length = 0 := by omega
  apply hs
  cases s with
  | mk data =>
    cases data with
    | nil => rfl
    | cons a as => simp [String.length] at hzero

/-- C7 witness: the statement at a concrete session and a concrete
non-empty serialized body. -/
theorem absent_body_serialization_witness :
    CallerGo.callApiParams (fun x => x) (none : Option String) = ""
    ∧ (CallerGo.callApiRequest caller0 5000 "/me" "GET"
        (CallerGo.callApiParams (fun x => x) (none : Option String))).body = ""
    ∧ (("" == "null") = false)
    ∧ (CallerGo.callApiRequest caller0 5000 "/me" "GET"
        (CallerGo.callApiParams (fun x => x) (none : Option String))).body ≠ "[1]"
    ∧ CallerGo.sigString caller0 "GET" (caller0.Url ++ "/me")
        (CallerGo.callApiParams (fun x => x) (none : Option String)) 5000
        ≠ CallerGo.sigString caller0 "GET" (caller0.Url ++ "/me") "[1]" 5000 :=
  absent_body_serialization String (fun x => x) caller0 5000 5000 "/me" "GET" "[1]"
    (by decide)

/-- C8: the request built by `GetConsumerKey` attaches exactly the
content-type and application-identity headers, in both implementations, and
in particular never an `X-Ovh-Signature` or `X-Ovh-Consumer` header (the
signature function does not occur on this path). -/
theorem consumer_key_request_headers :
    ∀ (c : Caller) (params : String),
      CallerGo.getCKHeaders c
        = [("Content-Type", "application/json"), ("X-OVH-Application", c.ApplicationKey)]
    ∧ (CallerGo.getCKRequest c params).headers = CallerGo.getCKHeaders c
    ∧ ((CallerGo.getCKHeaders c).map Prod.fst).contains "X-Ovh-Signature" = false
    ∧ ((CallerGo.getCKHeaders c).map Prod.fst).contains "X-Ovh-Consumer" = false
    ∧ Part000.getCKHeaders c
        = [("Content-Type", "application/json"), ("X-OVH-Application", c.ApplicationKey)]
    ∧ ((Part000.getCKHeaders c).map Prod.fst).contains "X-Ovh-Signature" = false
    ∧ ((Part000.getCKHeaders c).map Prod.fst).contains "X-Ovh-Consumer" = false := by
  intro c params
  exact ⟨rfl, rfl, rfl, rfl, rfl, rfl, rfl⟩

/-- C9: the dispatcher call, the time fetch and ping leave every session
field (application key and secret, consumer token, base URL, clock offset)
unchanged, in both implementations, whether they succeed or fail; and
`GetConsumerKey`, the only operation that writes the consumer token, leaves
all the other fields unchanged. -/
theorem session_frame :
    ∀ (c : Caller) (localNow : Int) (url method params tb : String) (status : Int)
      (bodyLen : Nat) (hs d : Bool) (eb ckb : Option (List (String × JVal))),
      (CallerGo.timeOp c status tb).1 = c
    ∧ (CallerGo.pingOp c status tb).1 = c
    ∧ (CallerGo.callApiOp c localNow url method params status bodyLen hs d eb).1 = c
    ∧ (Part000.timeOp c status tb).1 = c
    ∧ (Part000.pingOp c status tb).1 = c
    ∧ (Part000.callApiOp c localNow url method params status bodyLen hs d eb).1 = c
    ∧ (CallerGo.getConsumerKeyOp c status ckb eb).1.ApplicationKey = c.ApplicationKey
    ∧ (CallerGo.getConsumerKeyOp c status ckb eb).1.ApplicationSecret = c.ApplicationSecret
    ∧ (CallerGo.getConsumerKeyOp c status ckb eb).1.Url = c.Url
    ∧ (CallerGo.getConsumerKeyOp c status ckb eb).1.delay = c.delay
    ∧ (Part000.getConsumerKeyOp c status ckb eb).1.ApplicationKey = c.ApplicationKey
    ∧ (Part000.getConsumerKeyOp c status ckb eb).1.ApplicationSecret = c.ApplicationSecret
    ∧ (Part000.getConsumerKeyOp c status ckb eb).1.Url = c.Url
    ∧ (Part000.getConsumerKeyOp c status ckb eb).1.delay = c.delay := by
  intro c localNow url method params tb status bodyLen hs d eb ckb
  refine ⟨rfl, rfl, rfl, rfl, rfl, rfl, ?_, ?_, ?_, ?_, ?_, ?_, ?_, ?_⟩ <;>
    by_cases h : status = 200 <;> cases ckb <;> cases eb <;>
      simp [CallerGo.getConsumerKeyOp, Part000.getConsumerKeyOp, h]

/-- C1: at local clock 1000 with the time endpoint returning 1100,
caller.go stores offset `remote - localAtIssue = 100` and stamps a later
call (local clock 5000) with `5000 + 100 = 5100`, as the claim states; but
part_000 stores `time.Since(remote) = localAtResponse - remote = -100`, the
negation of the claimed offset, so its later timestamp is 4900, not
`localNow + (remote - localAtIssue) = 5100` — the skew is doubled instead
of cancelled. -/
theorem clock_offset_part000_reversed :
    CallerGo.newCaller "ovh-eu" "AK" "AS" "" 1000 200 "1100"
      = Except.ok { ApplicationKey := "AK", ApplicationSecret := "AS", ConsumerKey := "",
                    Url := "https://api.ovh.com/1.0", delay := 100 }
    ∧ Part000.newCaller "ovh-eu" "AK" "AS" "" 1000 200 "1100"
      = Except.ok { ApplicationKey := "AK", ApplicationSecret := "AS", ConsumerKey := "",
                    Url := "https://api.ovh.com/1.0", delay := -100 }
    ∧ (((-100 : Int) == 1100 - 1000) = false)
    ∧ (CallerGo.callApiRequest
        { ApplicationKey := "AK", ApplicationSecret := "AS", ConsumerKey := "",
          Url := "https://api.ovh.com/1.0", delay := 100 } 5000 "/me" "GET" "").headers.lookup
        "X-Ovh-Timestamp" = some "5100"
    ∧ Part000.callApiTimestamp
        { ApplicationKey := "AK", ApplicationSecret := "AS", ConsumerKey := "",
          Url := "https://api.ovh.com/1.0", delay := -100 } 5000 = 4900
    ∧ (((4900 : Int) == 5000 + (1100 - 1000)) = false) := by
  refine ⟨rfl, rfl, by decide, ?_, by decide, by decide⟩
  rfl

/-- C4: on a 200 credential response with consumer key `abc`, state
`pendingValidation` and a validation URL, both implementations store `abc`
into the session and return it in the grant together with the URL; but
the grant from caller.go carries an empty status — its `Status` field has no json
tag and the body key `state` does not case-insensitively match the field
name — while part_000 (whose field is tagged `state`) returns
`pendingValidation` as the claim requires. -/
theorem consumer_key_grant_status_dropped :
    (CallerGo.getConsumerKeyOp caller0 200 (some ckBodyEx) none).1.ConsumerKey = "abc"
    ∧ (CallerGo.getConsumerKeyOp caller0 200 (some ckBodyEx) none).2
        = Except.ok { ConsumerKey := "abc", Status := "",
                      ValidationUrl := "https://example.com/validate" }
    ∧ (("" == "pendingValidation") = false)
    ∧ (Part000.getConsumerKeyOp caller0 200 (some ckBodyEx) none).1.ConsumerKey = "abc"
    ∧ (Part000.getConsumerKeyOp caller0 200 (some ckBodyEx) none).2
        = Except.ok { ConsumerKey := "abc", Status := "pendingValidation",
                      ValidationUrl := "https://example.com/validate" } := by
  exact ⟨by decide, rfl, by decide, by decide, rfl⟩
